import Mathlib

/-!
Verification of the purchase order state-transition engine of the
api-warolabs backend (`app/services/purchase_tracking_service.py` and
`app/services/purchases_service.py`), as a shallow embedding in Lean 4.

Statuses and most identifiers are kept as strings, exactly as the source
stores them; timestamps are integers (seconds); monetary amounts are
integers; nullable columns are `Option` values.  Python truthiness of
optional numbers is modelled explicitly (`pyTruthy`).
-/

namespace Warolabs

/-- The module-level STATE_TRANSITIONS dict of
`purchase_tracking_service.py` (lines 39-52), verbatim. -/
def STATE_TRANSITIONS : List (String × List String) :=
  [ ("quotation", ["pending", "cancelled"]),
    ("pending", ["confirmed", "cancelled"]),
    ("confirmed", ["preparing", "paid", "invoiced", "cancelled"]),
    ("preparing", ["paid", "invoiced", "cancelled"]),
    ("paid", ["invoiced"]),
    ("invoiced", ["shipped"]),
    ("shipped", ["received", "partially_received", "overdue"]),
    ("partially_received", ["received", "overdue"]),
    ("received", ["verified"]),
    ("verified", ["paid"]),
    ("cancelled", []),
    ("overdue", ["shipped", "received", "cancelled"]) ]

/-- Function `validate_state_transition` of `purchase_tracking_service.py`
(lines 54-57): `STATE_TRANSITIONS.get(from_status, [])` membership. -/
def validate_state_transition (from_status to_status : String) : Bool :=
  let allowed_transitions := (STATE_TRANSITIONS.lookup from_status).getD []
  allowed_transitions.contains to_status

/-- The twelve purchase statuses named in spec section 4.1. -/
inductive Status where
  | quotation | pending | confirmed | preparing | shipped
  | partRecv | received | verified | invoiced | paid
  | cancelled | overdue
deriving DecidableEq, Repr, Fintype

/-- The string stored in the database for each status. -/
def Status.str : Status → String
  | .quotation => "quotation"
  | .pending => "pending"
  | .confirmed => "confirmed"
  | .preparing => "preparing"
  | .shipped => "shipped"
  | .partRecv => "partially_received"
  | .received => "received"
  | .verified => "verified"
  | .invoiced => "invoiced"
  | .paid => "paid"
  | .cancelled => "cancelled"
  | .overdue => "overdue"

/-- Modelled from the spec: the transition table printed in spec section
4.1 (with `paid -> {invoiced}`, its first `paid` row).  It differs from the
source dict in that `shipped` is listed among the successors of both
`confirmed` and `preparing`. -/
def SPEC_TRANSITIONS : List (String × List String) :=
  [ ("quotation", ["pending", "cancelled"]),
    ("pending", ["confirmed", "cancelled"]),
    ("confirmed", ["preparing", "shipped", "paid", "invoiced", "cancelled"]),
    ("preparing", ["shipped", "paid", "invoiced", "cancelled"]),
    ("paid", ["invoiced"]),
    ("invoiced", ["shipped"]),
    ("shipped", ["received", "partially_received", "overdue"]),
    ("partially_received", ["received", "overdue"]),
    ("received", ["verified"]),
    ("verified", ["paid"]),
    ("cancelled", []),
    ("overdue", ["shipped", "received", "cancelled"]) ]

/-- Modelled from the spec: membership in the spec section 4.1 allowed-set. -/
def spec_allows (from_status to_status : String) : Bool :=
  ((SPEC_TRANSITIONS.lookup from_status).getD []).contains to_status

/-- C1 (counterexample): the source table does NOT allow `shipped` as a
successor of `confirmed` or of `preparing`, although the spec section 4.1
table lists it in both allowed-sets, so the two tables are not equal. -/
theorem c1_counterexample :
    validate_state_transition "confirmed" "shipped" = false ∧
    spec_allows "confirmed" "shipped" = true ∧
    validate_state_transition "preparing" "shipped" = false ∧
    spec_allows "preparing" "shipped" = true := by
  refine ⟨rfl, rfl, rfl, rfl⟩

/-- C1 (amended): over all pairs of the twelve statuses,
`validate_state_transition` agrees with the spec section 4.1 table except
that `shipped` is not an allowed successor of `confirmed` or `preparing`. -/
theorem c1_table_agrees_except_shipped :
    ∀ f t : Status,
      validate_state_transition f.str t.str =
        (spec_allows f.str t.str &&
          !((f = .confirmed || f = .preparing) && t = .shipped)) := by
  decide

/-! ## Data model

The purchase aggregate: the `tenant_purchases` row, its
`tenant_purchase_items` rows, the append-only `purchase_status_history`
rows and the `purchase_attachments` rows touched by the services. -/

/-- A `tenant_purchase_items` row (columns the services read or write). -/
structure Item where
  id : Nat
  ingredient_id : Nat
  quantity : Int
  unit : String
  unit_cost : Option Int := none
  total_cost : Option Int := none
  expiry_date : Option Int := none
  batch_number : Option String := none
  notes : Option String := none
  quantity_received : Option Int := none
  item_condition : Option String := none
  quality_status : Option String := none
  quality_notes : Option String := none
  verification_notes : Option String := none
  received_at : Option Int := none
  verified_at : Option Int := none
deriving DecidableEq, Repr

/-- A `tenant_purchases` row (columns the services read or write), with
its items inlined. -/
structure Purchase where
  status : String
  purchase_number : Option String := none
  supplier_id : Option Nat := none
  purchase_date : Option Int := none
  delivery_date : Option Int := none
  confirmation_number : Option String := none
  estimated_delivery_date : Option Int := none
  tracking_number : Option String := none
  carrier : Option String := none
  package_count : Option Int := none
  package_condition : Option String := none
  received_by : Option Nat := none
  verified_by : Option Nat := none
  invoice_number : Option String := none
  invoice_date : Option Int := none
  invoice_amount : Option Int := none
  total_amount : Option Int := none
  tax_amount : Option Int := none
  payment_type : Option String := none
  payment_terms : Option String := none
  credit_days : Option Int := none
  payment_due_date : Option Int := none
  payment_balance : Option Int := none
  requires_advance_payment : Option Bool := none
  consolidation_group : Option String := none
  payment_method : Option String := none
  payment_reference : Option String := none
  payment_amount : Option Int := none
  payment_date : Option Int := none
  cancellation_reason : Option String := none
  notes : Option String := none
  confirmed_at : Option Int := none
  preparing_at : Option Int := none
  shipped_at : Option Int := none
  received_at : Option Int := none
  verified_at : Option Int := none
  invoiced_at : Option Int := none
  paid_at : Option Int := none
  cancelled_at : Option Int := none
  updated_at : Option Int := none
  items : List Item := []
deriving DecidableEq, Repr

/-- A `purchase_status_history` row.  Metadata values are rendered to
strings (the source serialises the metadata dict to JSON). -/
structure HistoryEntry where
  from_status : Option String
  to_status : String
  changed_by : Nat
  metadata : List (String × Option String)
  notes : Option String
deriving DecidableEq, Repr

/-- A `purchase_attachments` row as inserted by
`upload_purchase_attachments`. -/
structure AttachmentRow where
  purchase_id : Nat
  tenant_id : Nat
  path : String
  file_name : String
  file_size : Int
  mime_type : String
  attachment_type : String
  description : String
  uploaded_by : Nat
  s3_key : String
  s3_url : String
  created_at : Int
deriving DecidableEq, Repr

/-- The database state around one purchase: the purchase row (with its
items), its history rows and its attachment rows, in insertion order. -/
structure PState where
  purchase_id : Nat
  tenant_id : Nat
  purchase : Purchase
  history : List HistoryEntry
  attachments : List AttachmentRow
deriving DecidableEq, Repr

/-- Python truthiness of an optional number (None and 0 are falsy). -/
def pyTruthy : Option Int → Bool
  | none => false
  | some n => n != 0

/-- A date string argument: either it parses under
`datetime.fromisoformat` to a timestamp, or it is malformed. -/
inductive DateInput where
  | valid (t : Int)
  | malformed
deriving DecidableEq, Repr

/-- A `try: fromisoformat .. except: pass` parse: malformed input is
treated as absent. -/
def parse_iso_or_none : DateInput → Option Int
  | .valid t => some t
  | .malformed => none

/-- A `try: fromisoformat .. except: now()` parse: malformed input is
replaced by the current server time. -/
def parse_iso_or_now (d : DateInput) (now : Int) : Int :=
  match d with
  | .valid t => t
  | .malformed => now

/-! ## Attachment upload helper (`upload_purchase_attachments`) -/

/-- The environment's outcome for one file: blob upload, presigned URL and
row insert all succeed (`ok`), the upload returns a falsy key (`noKey`),
or an exception is raised somewhere in the per-file `try` (`failed`). -/
inductive UploadOutcome where
  | ok (s3_key : String) (s3_url : String)
  | noKey
  | failed
deriving DecidableEq, Repr

/-- One `UploadFile` argument together with its environment outcome. -/
structure UploadFileArg where
  filename : String
  size : Option Int := none
  content_type : Option String := none
  outcome : UploadOutcome
deriving DecidableEq, Repr

/-- True when the per-file `try` body ran to completion (a row was
inserted for this file). -/
def uploadOk (f : UploadFileArg) : Bool :=
  match f.outcome with
  | .ok _ _ => true
  | _ => false

/-- Helper `upload_purchase_attachments` (`purchase_tracking_service.py` lines
63-134): per file, try to upload and insert a row; any per-file failure is
swallowed and the loop continues.  Returns the inserted rows, in order.
The source's `description_prefix` argument is `description_text` here. -/
def upload_purchase_attachments (tenant_id purchase_id user_id : Nat)
    (files : List UploadFileArg) (attachment_type : String)
    (description_text : String) (now : Int) : List AttachmentRow :=
  files.filterMap fun f =>
    match f.outcome with
    | .ok key url =>
        some { tenant_id := tenant_id
               purchase_id := purchase_id
               path := key
               file_name := f.filename
               file_size := f.size.getD 0
               mime_type := f.content_type.getD "application/octet-stream"
               attachment_type := attachment_type
               description := description_text
               uploaded_by := user_id
               s3_key := key
               s3_url := url
               created_at := now }
    | .noKey => none
    | .failed => none

/-- Function `create_status_history_entry` (lines 347-374): append one history row
inside the current transaction. -/
def create_status_history_entry (s : PState) (from_status : Option String)
    (to_status : String) (changed_by : Nat)
    (metadata : List (String × Option String)) (notes : Option String) :
    PState :=
  { s with history := s.history ++
      [{ from_status := from_status
         to_status := to_status
         changed_by := changed_by
         metadata := metadata
         notes := notes }] }

/-! ## Transition operations

Each operation returns the result of the request (an error, or the new
database state) together with the trace of externally visible events in
source order.  The purchase-load by `(id, tenant_id)` opens every
operation on an existing purchase, so the not-found branch is not
modelled; the email notification's own success is an environment input
(`emailOk`) because the source wraps the send in `try .. except: pass`. -/

/-- Errors an operation can raise (HTTP 400/404 in the source). -/
inductive TrError where
  | notFound
  | invalidTransition (current target : String)
  | validationError (msg : String)
deriving DecidableEq, Repr

/-- Externally visible events of one operation, in source order. -/
inductive Event where
  | txBegin
  | loadPurchase
  | updatePurchase
  | updateItems
  | insertHistory
  | uploadAttachments
  | emailSend (ok : Bool)
  | txCommit
  | txRollback
deriving DecidableEq, Repr

/-- The database state after an operation: on an error the transaction
rolled back, so the state is unchanged. -/
def applyResult (s : PState) (r : Except TrError PState) : PState :=
  match r with
  | .error _ => s
  | .ok s2 => s2

/-- Model `ConfirmPurchaseData` of `models/purchase.py`. -/
structure ConfirmPurchaseData where
  confirmation_number : String
  estimated_delivery_date : Option Int := none
  notes : Option String := none
deriving DecidableEq, Repr

/-- Operation `transition_to_confirmed` (lines 525-619): validate against the
table, set confirmation fields and timestamps, append history, then try
to email the supplier, all before the transaction commits. -/
def transition_to_confirmed (s : PState) (data : ConfirmPurchaseData)
    (user_id : Nat) (now : Int) (emailOk : Bool) :
    Except TrError PState × List Event :=
  if validate_state_transition s.purchase.status "confirmed" then
    let p := s.purchase
    let p2 := { p with
      status := "confirmed"
      confirmation_number := some data.confirmation_number
      estimated_delivery_date := data.estimated_delivery_date
      confirmed_at := some now
      updated_at := some now }
    let s2 := create_status_history_entry { s with purchase := p2 }
      (some p.status) "confirmed" user_id
      [("confirmation_number", some data.confirmation_number),
       ("estimated_delivery_date", data.estimated_delivery_date.map toString)]
      data.notes
    (.ok s2,
     [.txBegin, .loadPurchase, .updatePurchase, .insertHistory,
      .emailSend emailOk, .txCommit])
  else
    (.error (.invalidTransition s.purchase.status "confirmed"),
     [.txBegin, .loadPurchase, .txRollback])

/-- Operation `transition_to_shipped` (lines 621-748): parse the optional delivery
date (malformed treated as absent), validate, set shipping fields, append
history, ingest `shipping_label` attachments, email, commit. -/
def transition_to_shipped (s : PState) (tracking_number carrier : String)
    (estimated_delivery_date : Option DateInput) (package_count : Option Int)
    (notes : Option String) (files : List UploadFileArg)
    (user_id : Nat) (now : Int) (emailOk : Bool) :
    Except TrError PState × List Event :=
  let estimated_delivery_dt := estimated_delivery_date.bind parse_iso_or_none
  if validate_state_transition s.purchase.status "shipped" then
    let p := s.purchase
    let p2 := { p with
      status := "shipped"
      tracking_number := some tracking_number
      carrier := some carrier
      estimated_delivery_date := estimated_delivery_dt
      package_count := package_count
      shipped_at := some now
      updated_at := some now }
    let s2 := create_status_history_entry { s with purchase := p2 }
      (some p.status) "shipped" user_id
      [("tracking_number", some tracking_number),
       ("carrier", some carrier),
       ("package_count", package_count.map toString)]
      notes
    let rows := upload_purchase_attachments s.tenant_id s.purchase_id
      user_id files "shipping_label" ("Envío: " ++ tracking_number) now
    let s3 := { s2 with attachments := s2.attachments ++ rows }
    (.ok s3,
     [.txBegin, .loadPurchase, .updatePurchase, .insertHistory,
      .uploadAttachments, .emailSend emailOk, .txCommit])
  else
    (.error (.invalidTransition s.purchase.status "shipped"),
     [.txBegin, .loadPurchase, .txRollback])

/-- One entry of the JSON `items_data` payload of
`transition_to_received` (dict `.get` fields may be absent). -/
structure ReceiveItemUpdate where
  ingredient_id : Option Nat := none
  quantity_received : Option Int := none
  item_condition : Option String := none
deriving DecidableEq, Repr

/-- A JSON payload argument: either `json.loads` succeeds, or it raises
`JSONDecodeError`. -/
inductive ItemsData (α : Type) where
  | malformed
  | parsed (items : List α)
deriving DecidableEq, Repr

/-- The per-entry item update of `transition_to_received` (lines
810-821): when `quantity_received` is present, update every item of the
purchase with the matching `ingredient_id`. -/
def apply_reception_update (items : List Item) (u : ReceiveItemUpdate)
    (now : Int) : List Item :=
  match u.quantity_received with
  | none => items
  | some q =>
      items.map fun it =>
        if u.ingredient_id = some it.ingredient_id then
          { it with
            quantity_received := some q
            item_condition := u.item_condition
            received_at := some now }
        else it

/-- Operation `transition_to_received` (lines 750-883): parse the items payload
(malformed is a validation error raised before the transaction), pick
`partially_received` or `received`, validate, update the purchase and the
items, append history, ingest `delivery_photo` attachments, email. -/
def transition_to_received (s : PState)
    (items_data : ItemsData ReceiveItemUpdate) (package_condition : String)
    (reception_notes : Option String) (partialFlag : Bool)
    (files : List UploadFileArg) (user_id : Nat) (now : Int)
    (emailOk : Bool) : Except TrError PState × List Event :=
  match items_data with
  | .malformed => (.error (.validationError "Invalid items data format"), [])
  | .parsed items =>
    let target_status := if partialFlag then "partially_received" else "received"
    if validate_state_transition s.purchase.status target_status then
      let p := s.purchase
      let p2 := { p with
        status := target_status
        package_condition := some package_condition
        received_by := some user_id
        received_at := some now
        updated_at := some now
        items := items.foldl (fun acc u => apply_reception_update acc u now) p.items }
      let s2 := create_status_history_entry { s with purchase := p2 }
        (some p.status) target_status user_id
        [("package_condition", some package_condition),
         ("partial_reception", some (toString partialFlag))]
        reception_notes
      let rows := upload_purchase_attachments s.tenant_id s.purchase_id
        user_id files "delivery_photo" "Recepción de mercancía" now
      let s3 := { s2 with attachments := s2.attachments ++ rows }
      (.ok s3,
       [.txBegin, .loadPurchase, .updatePurchase, .updateItems,
        .insertHistory, .uploadAttachments, .emailSend emailOk, .txCommit])
    else
      (.error (.invalidTransition s.purchase.status target_status),
       [.txBegin, .loadPurchase, .txRollback])

/-- One entry of the JSON `items_data` payload of
`transition_to_verified`. -/
structure VerifyItemUpdate where
  ingredient_id : Option Nat := none
  quality_status : Option String := none
  quality_notes : Option String := none
  verification_notes : Option String := none
deriving DecidableEq, Repr

/-- The per-entry item update of `transition_to_verified` (lines
940-952): when `quality_status` is present, update every item of the
purchase with the matching `ingredient_id`. -/
def apply_quality_update (items : List Item) (u : VerifyItemUpdate)
    (now : Int) : List Item :=
  match u.quality_status with
  | none => items
  | some q =>
      items.map fun it =>
        if u.ingredient_id = some it.ingredient_id then
          { it with
            quality_status := some q
            quality_notes := u.quality_notes
            verification_notes := u.verification_notes
            verified_at := some now }
        else it

/-- Operation `transition_to_verified` (lines 885-1010). -/
def transition_to_verified (s : PState)
    (items_data : ItemsData VerifyItemUpdate) (all_items_approved : Bool)
    (verification_notes : Option String) (files : List UploadFileArg)
    (user_id : Nat) (now : Int) (emailOk : Bool) :
    Except TrError PState × List Event :=
  match items_data with
  | .malformed => (.error (.validationError "Invalid items data format"), [])
  | .parsed items =>
    if validate_state_transition s.purchase.status "verified" then
      let p := s.purchase
      let p2 := { p with
        status := "verified"
        verified_by := some user_id
        verified_at := some now
        updated_at := some now
        items := items.foldl (fun acc u => apply_quality_update acc u now) p.items }
      let s2 := create_status_history_entry { s with purchase := p2 }
        (some p.status) "verified" user_id
        [("all_items_approved", some (toString all_items_approved))]
        verification_notes
      let rows := upload_purchase_attachments s.tenant_id s.purchase_id
        user_id files "quality_photo" "Verificación de calidad" now
      let s3 := { s2 with attachments := s2.attachments ++ rows }
      (.ok s3,
       [.txBegin, .loadPurchase, .updatePurchase, .updateItems,
        .insertHistory, .uploadAttachments, .emailSend emailOk, .txCommit])
    else
      (.error (.invalidTransition s.purchase.status "verified"),
       [.txBegin, .loadPurchase, .txRollback])

/-- Operation `transition_to_invoiced` (lines 1012-1167): parse `invoice_date`
(malformed replaced by the current time) and `payment_due_date` (malformed
treated as absent), validate, compute the payment due date (the stored
positive `credit_days` wins; otherwise a caller `credit_days` is used when
no due date was parsed), set `payment_balance` to the invoice amount (0
when falsy), write invoice fields with `total_amount = invoice_amount`,
append history, ingest `invoice` attachments, email.  `timedelta(days=n)`
is `86400 * n` seconds. -/
def transition_to_invoiced (s : PState) (invoice_number : String)
    (invoice_date : DateInput) (invoice_amount : Option Int)
    (tax_amount : Option Int) (credit_days : Option Int)
    (payment_due_date : Option DateInput) (notes : Option String)
    (files : List UploadFileArg) (user_id : Nat) (now : Int)
    (emailOk : Bool) : Except TrError PState × List Event :=
  let invoice_dt := parse_iso_or_now invoice_date now
  let payment_due_dt0 := payment_due_date.bind parse_iso_or_none
  if validate_state_transition s.purchase.status "invoiced" then
    let p := s.purchase
    let payment_due_dt :=
      if pyTruthy p.credit_days = true ∧ p.credit_days.getD 0 > 0 then
        some (invoice_dt + 86400 * p.credit_days.getD 0)
      else if payment_due_dt0 = none ∧ pyTruthy credit_days = true then
        some (invoice_dt + 86400 * credit_days.getD 0)
      else
        payment_due_dt0
    let payment_balance : Int :=
      if pyTruthy invoice_amount = true then invoice_amount.getD 0 else 0
    let p2 := { p with
      status := "invoiced"
      invoice_number := some invoice_number
      invoice_date := some invoice_dt
      invoice_amount := invoice_amount
      total_amount := invoice_amount
      tax_amount := tax_amount
      payment_due_date := payment_due_dt
      payment_balance := some payment_balance
      invoiced_at := some now
      updated_at := some now }
    let s2 := create_status_history_entry { s with purchase := p2 }
      (some p.status) "invoiced" user_id
      [("invoice_number", some invoice_number),
       ("invoice_amount",
        if pyTruthy invoice_amount = true
        then some (toString (invoice_amount.getD 0)) else none),
       ("payment_due_date", payment_due_dt.map toString)]
      notes
    let rows := upload_purchase_attachments s.tenant_id s.purchase_id
      user_id files "invoice" ("Factura: " ++ invoice_number) now
    let s3 := { s2 with attachments := s2.attachments ++ rows }
    (.ok s3,
     [.txBegin, .loadPurchase, .updatePurchase, .insertHistory,
      .uploadAttachments, .emailSend emailOk, .txCommit])
  else
    (.error (.invalidTransition s.purchase.status "invoiced"),
     [.txBegin, .loadPurchase, .txRollback])

/-- Operation `transition_to_paid` (lines 1169-1290): parse `payment_date`
(malformed replaced by the current time), validate, write payment fields,
append history, ingest `payment_proof` attachments, email. -/
def transition_to_paid (s : PState) (payment_method payment_reference : String)
    (payment_amount : Int) (payment_date : DateInput) (notes : Option String)
    (files : List UploadFileArg) (user_id : Nat) (now : Int)
    (emailOk : Bool) : Except TrError PState × List Event :=
  let payment_dt := parse_iso_or_now payment_date now
  if validate_state_transition s.purchase.status "paid" then
    let p := s.purchase
    let p2 := { p with
      status := "paid"
      payment_method := some payment_method
      payment_reference := some payment_reference
      payment_amount := some payment_amount
      payment_date := some payment_dt
      paid_at := some now
      updated_at := some now }
    let s2 := create_status_history_entry { s with purchase := p2 }
      (some p.status) "paid" user_id
      [("payment_method", some payment_method),
       ("payment_amount", some (toString payment_amount)),
       ("payment_date", some (toString payment_dt))]
      notes
    let rows := upload_purchase_attachments s.tenant_id s.purchase_id
      user_id files "payment_proof"
      ("Comprobante de pago: " ++ payment_reference) now
    let s3 := { s2 with attachments := s2.attachments ++ rows }
    (.ok s3,
     [.txBegin, .loadPurchase, .updatePurchase, .insertHistory,
      .uploadAttachments, .emailSend emailOk, .txCommit])
  else
    (.error (.invalidTransition s.purchase.status "paid"),
     [.txBegin, .loadPurchase, .txRollback])

/-- Operation `cancel_purchase` (lines 1292-1352): rejected only when the current
status is `paid` or `cancelled` (NOT via the transition table); otherwise
set `cancelled` with the reason and append history.  No attachments and no
email on this path. -/
def cancel_purchase (s : PState) (cancellation_reason : String)
    (notes : Option String) (user_id : Nat) (now : Int) :
    Except TrError PState × List Event :=
  if s.purchase.status = "paid" ∨ s.purchase.status = "cancelled" then
    (.error (.invalidTransition s.purchase.status "cancelled"),
     [.txBegin, .loadPurchase, .txRollback])
  else
    let p := s.purchase
    let p2 := { p with
      status := "cancelled"
      cancellation_reason := some cancellation_reason
      cancelled_at := some now
      updated_at := some now }
    let s2 := create_status_history_entry { s with purchase := p2 }
      (some p.status) "cancelled" user_id
      [("cancellation_reason", some cancellation_reason)]
      notes
    (.ok s2, [.txBegin, .loadPurchase, .updatePurchase, .insertHistory, .txCommit])

/-- One priced item of the `complete_quotation` body. -/
structure QuotationItemPrice where
  id : Nat
  unit_cost : Int
  total_cost : Int
  notes : Option String := none
deriving DecidableEq, Repr

/-- The `complete_quotation` body dict.  `tax_amount`/`total_amount` model
`data.get(key, 0)`: `none` means the key is absent (default 0). -/
structure CompleteQuotationData where
  items : List QuotationItemPrice := []
  tax_amount : Option Int := none
  total_amount : Option Int := none
  notes : Option String := none
deriving DecidableEq, Repr

/-- The per-item price write of `complete_quotation` (lines 1392-1401):
set `unit_cost` and `total_cost`, `COALESCE` the notes, matched by item
id. -/
def apply_quotation_price (items : List Item) (u : QuotationItemPrice) :
    List Item :=
  items.map fun it =>
    if it.id = u.id then
      { it with
        unit_cost := some u.unit_cost
        total_cost := some u.total_cost
        notes := match u.notes with
          | some n => some n
          | none => it.notes }
    else it

/-- Operation `complete_quotation` (lines 1358-1435): validate `quotation ->
pending` against the table, write per-item prices, set purchase totals and
status `pending`, append history.  No attachments and no email. -/
def complete_quotation (s : PState) (data : CompleteQuotationData)
    (user_id : Nat) (now : Int) : Except TrError PState × List Event :=
  if validate_state_transition s.purchase.status "pending" then
    let p := s.purchase
    let p2 := { p with
      status := "pending"
      tax_amount := some (data.tax_amount.getD 0)
      total_amount := some (data.total_amount.getD 0)
      notes := match data.notes with
        | some n => some n
        | none => p.notes
      updated_at := some now
      items := data.items.foldl apply_quotation_price p.items }
    let s2 := create_status_history_entry { s with purchase := p2 }
      (some p.status) "pending" user_id
      [("items_priced", some (toString data.items.length)),
       ("total_amount", some (toString (data.total_amount.getD 0)))]
      (some "Quotation completed with prices from supplier")
    (.ok s2,
     [.txBegin, .loadPurchase, .updateItems, .updatePurchase,
      .insertHistory, .txCommit])
  else
    (.error (.invalidTransition s.purchase.status "pending"),
     [.txBegin, .loadPurchase, .txRollback])

/-! ## Transition-detail read path -/

/-- The attachment filter of `get_transition_detail` (lines 279-302): an
attachment is related to a transition when the absolute difference between
its `created_at` and the transition's `changed_at` is under 300 seconds. -/
def related_attachments (attachments : List AttachmentRow)
    (transition_time : Int) : List AttachmentRow :=
  attachments.filter fun att =>
    (att.created_at - transition_time).natAbs < 300

/-! ## Purchase creation and numbering (`purchases_service.py`) -/

/-- A previously stored purchase, as seen by the numbering query:
its `purchase_number` and its `created_at`. -/
structure ExistingPurchase where
  purchase_number : String
  created_at : Int
deriving DecidableEq, Repr

/-- The row of greatest `created_at` (the `ORDER BY created_at DESC LIMIT
1` pick; on ties the earlier row is kept, the database order being
unspecified). -/
def latest_created (ps : List ExistingPurchase) : Option ExistingPurchase :=
  ps.foldl
    (fun acc p =>
      match acc with
      | none => some p
      | some q => if p.created_at > q.created_at then some p else some q)
    none

/-- Split a character list on a separator, like Python `str.split`. -/
def splitChars (sep : Char) : List Char → List (List Char)
  | [] => [[]]
  | c :: cs =>
      let rest := splitChars sep cs
      if c = sep then [] :: rest
      else
        match rest with
        | [] => [[c]]
        | r :: rs => (c :: r) :: rs

/-- Whether a character is an ASCII digit. -/
def isDigitChar (c : Char) : Bool :=
  48 ≤ c.toNat && c.toNat ≤ 57

/-- Parse a non-empty all-digit character list as a number (`none` when
Python `int()` would raise). -/
def digitsToNat? (cs : List Char) : Option Nat :=
  if cs = [] then none
  else if cs.all isDigitChar then
    some (cs.foldl (fun acc c => 10 * acc + (c.toNat - 48)) 0)
  else none

/-- Python `int(purchase_number.split('-')[-1])`: the trailing dash-separated
segment as a number (`none` when `int()` would raise). -/
def purchase_number_seq (purchase_number : String) : Option Nat :=
  digitsToNat? ((splitChars '-' purchase_number.data).getLastD [])

/-- Pad a number to at least four digits with leading zeros
(`f"{n:04d}"`). -/
def zeroPad4 (n : Nat) : String :=
  let s := toString n
  String.mk (List.replicate (4 - s.length) '0') ++ s

/-- The `LIKE 'WR-{year}-%'` filter of the numbering query: the tenant's
purchases whose number starts with the current-year `WR-` pattern. -/
def matching_purchases (existing : List ExistingPurchase)
    (current_year : Nat) : List ExistingPurchase :=
  let yearPre := "WR-" ++ toString current_year ++ "-"
  existing.filter fun p => yearPre.data.isPrefixOf p.purchase_number.data

/-- The numbering block of `create_purchase` (`purchases_service.py`
lines 352-375): among the tenant's purchases whose number starts with
`WR-{year}-`, take the MOST RECENTLY CREATED one, increment its trailing
sequence number (1 when there is none), and format `WR-{year}-{n:04d}`.
`none` models `int()` raising on a malformed stored number. -/
def generate_purchase_number (existing : List ExistingPurchase)
    (current_year : Nat) : Option String :=
  let yearPre := "WR-" ++ toString current_year ++ "-"
  let next_number? : Option Nat :=
    match latest_created (matching_purchases existing current_year) with
    | none => some 1
    | some lp =>
        if lp.purchase_number ≠ "" then
          (purchase_number_seq lp.purchase_number).map (· + 1)
        else some 1
  next_number?.map fun n => yearPre ++ zeroPad4 n

/-- Modelled from the spec: the numbering rule as the spec section 4.4
words it, "finding the max existing sequence number for the tenant plus
current-year prefix and incrementing", 0001 when none exists. -/
def spec_generate_purchase_number (existing : List ExistingPurchase)
    (current_year : Nat) : String :=
  let yearPre := "WR-" ++ toString current_year ++ "-"
  let maxSeq := ((matching_purchases existing current_year).map fun p =>
    (purchase_number_seq p.purchase_number).getD 0).foldl max 0
  yearPre ++ zeroPad4 (maxSeq + 1)

/-- A line item with no prices (a quotation-stage item). -/
def sampleItem : Item :=
  { id := 1, ingredient_id := 1, quantity := 5, unit := "kg" }

/-- A one-item purchase state with the given status and no history or
attachments. -/
def sampleState (status : String) : PState :=
  { purchase_id := 1
    tenant_id := 1
    purchase := { status := status, items := [sampleItem] }
    history := []
    attachments := [] }

/-! ## Claims -/

/-- C2: each transition operation (confirm, ship, receive, verify,
invoice, pay, complete-quotation), invoked on a purchase whose current
status does not allow the requested target status under the transition
table, returns an invalid-transition error naming the current and target
statuses and rolls the transaction back: the purchase (status, timestamps,
items), the history rows and the attachment rows are all unchanged. -/
theorem c2_invalid_transition_rejected (s : PState)
    (cdata : ConfirmPurchaseData)
    (tn carrier : String) (edd : Option DateInput) (pc : Option Int)
    (snotes : Option String) (files : List UploadFileArg)
    (ritems : List ReceiveItemUpdate) (pkc : String)
    (rnotes : Option String) (partialFlag : Bool)
    (vitems : List VerifyItemUpdate) (appr : Bool) (vnotes : Option String)
    (inum : String) (idate : DateInput) (iamt tamt cd : Option Int)
    (pdd : Option DateInput) (inotes : Option String)
    (pm pref : String) (pamt : Int) (pdate : DateInput)
    (pnotes : Option String) (qdata : CompleteQuotationData)
    (uid : Nat) (now : Int) (eok : Bool) :
    (validate_state_transition s.purchase.status "confirmed" = false →
      transition_to_confirmed s cdata uid now eok =
        (.error (.invalidTransition s.purchase.status "confirmed"),
         [.txBegin, .loadPurchase, .txRollback]) ∧
      applyResult s (transition_to_confirmed s cdata uid now eok).1 = s) ∧
    (validate_state_transition s.purchase.status "shipped" = false →
      transition_to_shipped s tn carrier edd pc snotes files uid now eok =
        (.error (.invalidTransition s.purchase.status "shipped"),
         [.txBegin, .loadPurchase, .txRollback]) ∧
      applyResult s
        (transition_to_shipped s tn carrier edd pc snotes files uid now eok).1 = s) ∧
    (validate_state_transition s.purchase.status
        (if partialFlag then "partially_received" else "received") = false →
      transition_to_received s (.parsed ritems) pkc rnotes partialFlag files uid now eok =
        (.error (.invalidTransition s.purchase.status
          (if partialFlag then "partially_received" else "received")),
         [.txBegin, .loadPurchase, .txRollback]) ∧
      applyResult s
        (transition_to_received s (.parsed ritems) pkc rnotes partialFlag files uid now eok).1 = s) ∧
    (validate_state_transition s.purchase.status "verified" = false →
      transition_to_verified s (.parsed vitems) appr vnotes files uid now eok =
        (.error (.invalidTransition s.purchase.status "verified"),
         [.txBegin, .loadPurchase, .txRollback]) ∧
      applyResult s
        (transition_to_verified s (.parsed vitems) appr vnotes files uid now eok).1 = s) ∧
    (validate_state_transition s.purchase.status "invoiced" = false →
      transition_to_invoiced s inum idate iamt tamt cd pdd inotes files uid now eok =
        (.error (.invalidTransition s.purchase.status "invoiced"),
         [.txBegin, .loadPurchase, .txRollback]) ∧
      applyResult s
        (transition_to_invoiced s inum idate iamt tamt cd pdd inotes files uid now eok).1 = s) ∧
    (validate_state_transition s.purchase.status "paid" = false →
      transition_to_paid s pm pref pamt pdate pnotes files uid now eok =
        (.error (.invalidTransition s.purchase.status "paid"),
         [.txBegin, .loadPurchase, .txRollback]) ∧
      applyResult s
        (transition_to_paid s pm pref pamt pdate pnotes files uid now eok).1 = s) ∧
    (validate_state_transition s.purchase.status "pending" = false →
      complete_quotation s qdata uid now =
        (.error (.invalidTransition s.purchase.status "pending"),
         [.txBegin, .loadPurchase, .txRollback]) ∧
      applyResult s (complete_quotation s qdata uid now).1 = s) := by
  refine ⟨?_, ?_, ?_, ?_, ?_, ?_, ?_⟩ <;> intro h
  · simp [transition_to_confirmed, h, applyResult]
  · simp [transition_to_shipped, h, applyResult]
  · simp [transition_to_received, h, applyResult]
  · simp [transition_to_verified, h, applyResult]
  · simp [transition_to_invoiced, h, applyResult]
  · simp [transition_to_paid, h, applyResult]
  · simp [complete_quotation, h, applyResult]

/-- C2 witness: on a `cancelled` purchase every one of the seven
operations is an invalid transition and leaves the state unchanged. -/
theorem c2_invalid_transition_rejected_witness :
    applyResult (sampleState "cancelled")
      (transition_to_confirmed (sampleState "cancelled") ⟨"OC-1", none, none⟩
        1 100 true).1 = sampleState "cancelled" ∧
    applyResult (sampleState "cancelled")
      (transition_to_shipped (sampleState "cancelled") "1Z999" "UPS"
        none none none [] 1 100 true).1 = sampleState "cancelled" ∧
    applyResult (sampleState "cancelled")
      (transition_to_received (sampleState "cancelled") (.parsed []) "good"
        none false [] 1 100 true).1 = sampleState "cancelled" ∧
    applyResult (sampleState "cancelled")
      (transition_to_verified (sampleState "cancelled") (.parsed []) true
        none [] 1 100 true).1 = sampleState "cancelled" ∧
    applyResult (sampleState "cancelled")
      (transition_to_invoiced (sampleState "cancelled") "F-1" (.valid 10)
        none none none none none [] 1 100 true).1 = sampleState "cancelled" ∧
    applyResult (sampleState "cancelled")
      (transition_to_paid (sampleState "cancelled") "transfer" "TX1" 5
        (.valid 10) none [] 1 100 true).1 = sampleState "cancelled" ∧
    applyResult (sampleState "cancelled")
      (complete_quotation (sampleState "cancelled") {} 1 100).1 =
      sampleState "cancelled" := by
  have h := c2_invalid_transition_rejected (sampleState "cancelled")
    ⟨"OC-1", none, none⟩ "1Z999" "UPS" none none none [] [] "good" none false
    [] true none "F-1" (.valid 10) none none none none none "transfer" "TX1"
    5 (.valid 10) none {} 1 100 true
  exact ⟨(h.1 rfl).2, (h.2.1 rfl).2, (h.2.2.1 rfl).2, (h.2.2.2.1 rfl).2,
    (h.2.2.2.2.1 rfl).2, (h.2.2.2.2.2.1 rfl).2, (h.2.2.2.2.2.2 rfl).2⟩

/-- C6: cancellation fails (state unchanged) exactly on a `paid` or
`cancelled` purchase; from every other status it succeeds, sets the status
to `cancelled`, records the cancellation reason and timestamp, appends one
history entry, and writes no attachment. -/
theorem c6_cancel_boundary (s : PState) (reason : String)
    (notes : Option String) (uid : Nat) (now : Int) :
    (s.purchase.status = "paid" ∨ s.purchase.status = "cancelled" →
      cancel_purchase s reason notes uid now =
        (.error (.invalidTransition s.purchase.status "cancelled"),
         [.txBegin, .loadPurchase, .txRollback]) ∧
      applyResult s (cancel_purchase s reason notes uid now).1 = s) ∧
    (s.purchase.status ≠ "paid" → s.purchase.status ≠ "cancelled" →
      ∃ s2, (cancel_purchase s reason notes uid now).1 = .ok s2 ∧
        s2.purchase.status = "cancelled" ∧
        s2.purchase.cancellation_reason = some reason ∧
        s2.purchase.cancelled_at = some now ∧
        s2.history = s.history ++
          [{ from_status := some s.purchase.status
             to_status := "cancelled"
             changed_by := uid
             metadata := [("cancellation_reason", some reason)]
             notes := notes }] ∧
        s2.attachments = s.attachments) := by
  constructor
  · intro h
    simp [cancel_purchase, h, applyResult]
  · intro h1 h2
    have h : ¬ (s.purchase.status = "paid" ∨ s.purchase.status = "cancelled") := by
      simp [h1, h2]
    refine ⟨create_status_history_entry
        { s with purchase := { s.purchase with
            status := "cancelled"
            cancellation_reason := some reason
            cancelled_at := some now
            updated_at := some now } }
        (some s.purchase.status) "cancelled" uid
        [("cancellation_reason", some reason)] notes,
      ?_, ?_, ?_, ?_, ?_, ?_⟩ <;>
      simp [cancel_purchase, h, create_status_history_entry]

/-- C6 witness: a `shipped` purchase (whose table successors do not
include `cancelled`) is cancelled successfully with the reason recorded,
while cancelling a `paid` purchase fails and changes nothing. -/
theorem c6_cancel_boundary_witness :
    (∃ s2, (cancel_purchase (sampleState "shipped") "supplier out of stock"
        none 1 100).1 = .ok s2 ∧
      s2.purchase.status = "cancelled" ∧
      s2.purchase.cancellation_reason = some "supplier out of stock") ∧
    applyResult (sampleState "paid")
      (cancel_purchase (sampleState "paid") "too late" none 1 100).1 =
      sampleState "paid" := by
  constructor
  · obtain ⟨s2, h1, h2, h3, -⟩ :=
      (c6_cancel_boundary (sampleState "shipped") "supplier out of stock"
        none 1 100).2 (by decide) (by decide)
    exact ⟨s2, h1, h2, h3⟩
  · exact ((c6_cancel_boundary (sampleState "paid") "too late" none 1 100).1
      (Or.inl rfl)).2

/-- Whether an operation result is a success. -/
def resultOk (r : Except TrError PState) : Bool :=
  match r with
  | .ok _ => true
  | .error _ => false

/-- C4 (counterexample): in `transition_to_confirmed` the supplier email
attempt happens BEFORE the transaction commit event, not after it — and
the transition nevertheless succeeds when the email send fails. -/
theorem c4_counterexample :
    (transition_to_confirmed (sampleState "pending") ⟨"OC-9", none, none⟩
        1 100 false).2.indexOf (Event.emailSend false) <
      (transition_to_confirmed (sampleState "pending") ⟨"OC-9", none, none⟩
        1 100 false).2.indexOf Event.txCommit ∧
    (transition_to_confirmed (sampleState "pending") ⟨"OC-9", none, none⟩
        1 100 false).2.contains Event.txCommit = true ∧
    resultOk (transition_to_confirmed (sampleState "pending")
        ⟨"OC-9", none, none⟩ 1 100 false).1 = true := by
  refine ⟨by decide, by decide, by decide⟩

/-- C4 (amended): in every email-sending transition operation (confirm,
ship, receive, verify, invoice, pay) on a valid source status, the email
attempt occurs inside the transaction, before the commit event; the email
outcome never changes the operation's result, and the operation succeeds
whatever that outcome is. -/
theorem c4_email_inside_transaction (s : PState)
    (cdata : ConfirmPurchaseData)
    (tn carrier : String) (edd : Option DateInput) (pc : Option Int)
    (snotes : Option String) (files : List UploadFileArg)
    (ritems : List ReceiveItemUpdate) (pkc : String)
    (rnotes : Option String) (partialFlag : Bool)
    (vitems : List VerifyItemUpdate) (appr : Bool) (vnotes : Option String)
    (inum : String) (idate : DateInput) (iamt tamt cd : Option Int)
    (pdd : Option DateInput) (inotes : Option String)
    (pm pref : String) (pamt : Int) (pdate : DateInput)
    (pnotes : Option String) (uid : Nat) (now : Int) (eok : Bool) :
    (validate_state_transition s.purchase.status "confirmed" = true →
      (transition_to_confirmed s cdata uid now eok).2.indexOf (.emailSend eok) <
        (transition_to_confirmed s cdata uid now eok).2.indexOf .txCommit ∧
      (transition_to_confirmed s cdata uid now true).1 =
        (transition_to_confirmed s cdata uid now false).1 ∧
      resultOk (transition_to_confirmed s cdata uid now eok).1 = true) ∧
    (validate_state_transition s.purchase.status "shipped" = true →
      (transition_to_shipped s tn carrier edd pc snotes files uid now eok).2.indexOf
          (.emailSend eok) <
        (transition_to_shipped s tn carrier edd pc snotes files uid now eok).2.indexOf
          .txCommit ∧
      (transition_to_shipped s tn carrier edd pc snotes files uid now true).1 =
        (transition_to_shipped s tn carrier edd pc snotes files uid now false).1 ∧
      resultOk (transition_to_shipped s tn carrier edd pc snotes files uid now eok).1 =
        true) ∧
    (validate_state_transition s.purchase.status
        (if partialFlag then "partially_received" else "received") = true →
      (transition_to_received s (.parsed ritems) pkc rnotes partialFlag files uid now eok).2.indexOf
          (.emailSend eok) <
        (transition_to_received s (.parsed ritems) pkc rnotes partialFlag files uid now eok).2.indexOf
          .txCommit ∧
      (transition_to_received s (.parsed ritems) pkc rnotes partialFlag files uid now true).1 =
        (transition_to_received s (.parsed ritems) pkc rnotes partialFlag files uid now false).1 ∧
      resultOk (transition_to_received s (.parsed ritems) pkc rnotes partialFlag files uid now eok).1 =
        true) ∧
    (validate_state_transition s.purchase.status "verified" = true →
      (transition_to_verified s (.parsed vitems) appr vnotes files uid now eok).2.indexOf
          (.emailSend eok) <
        (transition_to_verified s (.parsed vitems) appr vnotes files uid now eok).2.indexOf
          .txCommit ∧
      (transition_to_verified s (.parsed vitems) appr vnotes files uid now true).1 =
        (transition_to_verified s (.parsed vitems) appr vnotes files uid now false).1 ∧
      resultOk (transition_to_verified s (.parsed vitems) appr vnotes files uid now eok).1 =
        true) ∧
    (validate_state_transition s.purchase.status "invoiced" = true →
      (transition_to_invoiced s inum idate iamt tamt cd pdd inotes files uid now eok).2.indexOf
          (.emailSend eok) <
        (transition_to_invoiced s inum idate iamt tamt cd pdd inotes files uid now eok).2.indexOf
          .txCommit ∧
      (transition_to_invoiced s inum idate iamt tamt cd pdd inotes files uid now true).1 =
        (transition_to_invoiced s inum idate iamt tamt cd pdd inotes files uid now false).1 ∧
      resultOk (transition_to_invoiced s inum idate iamt tamt cd pdd inotes files uid now eok).1 =
        true) ∧
    (validate_state_transition s.purchase.status "paid" = true →
      (transition_to_paid s pm pref pamt pdate pnotes files uid now eok).2.indexOf
          (.emailSend eok) <
        (transition_to_paid s pm pref pamt pdate pnotes files uid now eok).2.indexOf
          .txCommit ∧
      (transition_to_paid s pm pref pamt pdate pnotes files uid now true).1 =
        (transition_to_paid s pm pref pamt pdate pnotes files uid now false).1 ∧
      resultOk (transition_to_paid s pm pref pamt pdate pnotes files uid now eok).1 =
        true) := by
  refine ⟨?_, ?_, ?_, ?_, ?_, ?_⟩ <;> intro h
  · have ht : (transition_to_confirmed s cdata uid now eok).2 =
        [.txBegin, .loadPurchase, .updatePurchase, .insertHistory,
         .emailSend eok, .txCommit] := by
      simp [transition_to_confirmed, h]
    refine ⟨by rw [ht]; cases eok <;> decide, ?_, ?_⟩ <;>
      simp [transition_to_confirmed, h, resultOk]
  · have ht : (transition_to_shipped s tn carrier edd pc snotes files uid now eok).2 =
        [.txBegin, .loadPurchase, .updatePurchase, .insertHistory,
         .uploadAttachments, .emailSend eok, .txCommit] := by
      simp [transition_to_shipped, h]
    refine ⟨by rw [ht]; cases eok <;> decide, ?_, ?_⟩ <;>
      simp [transition_to_shipped, h, resultOk]
  · have ht : (transition_to_received s (.parsed ritems) pkc rnotes partialFlag files uid now eok).2 =
        [.txBegin, .loadPurchase, .updatePurchase, .updateItems,
         .insertHistory, .uploadAttachments, .emailSend eok, .txCommit] := by
      simp [transition_to_received, h]
    refine ⟨by rw [ht]; cases eok <;> decide, ?_, ?_⟩ <;>
      simp [transition_to_received, h, resultOk]
  · have ht : (transition_to_verified s (.parsed vitems) appr vnotes files uid now eok).2 =
        [.txBegin, .loadPurchase, .updatePurchase, .updateItems,
         .insertHistory, .uploadAttachments, .emailSend eok, .txCommit] := by
      simp [transition_to_verified, h]
    refine ⟨by rw [ht]; cases eok <;> decide, ?_, ?_⟩ <;>
      simp [transition_to_verified, h, resultOk]
  · have ht : (transition_to_invoiced s inum idate iamt tamt cd pdd inotes files uid now eok).2 =
        [.txBegin, .loadPurchase, .updatePurchase, .insertHistory,
         .uploadAttachments, .emailSend eok, .txCommit] := by
      simp [transition_to_invoiced, h]
    refine ⟨by rw [ht]; cases eok <;> decide, ?_, ?_⟩ <;>
      simp [transition_to_invoiced, h, resultOk]
  · have ht : (transition_to_paid s pm pref pamt pdate pnotes files uid now eok).2 =
        [.txBegin, .loadPurchase, .updatePurchase, .insertHistory,
         .uploadAttachments, .emailSend eok, .txCommit] := by
      simp [transition_to_paid, h]
    refine ⟨by rw [ht]; cases eok <;> decide, ?_, ?_⟩ <;>
      simp [transition_to_paid, h, resultOk]

/-- C4 witness: the amended statement instantiated, for each of the six
operations, at a concrete purchase in a valid source status with a
failing email send: the email event precedes the commit event and the
operation succeeds. -/
theorem c4_email_inside_transaction_witness :
    (resultOk (transition_to_confirmed (sampleState "pending")
      ⟨"OC-1", none, none⟩ 1 100 false).1 = true) ∧
    (resultOk (transition_to_shipped (sampleState "invoiced") "1Z999" "UPS"
      none none none [] 1 100 false).1 = true) ∧
    (resultOk (transition_to_received (sampleState "shipped") (.parsed [])
      "good" none false [] 1 100 false).1 = true) ∧
    (resultOk (transition_to_verified (sampleState "received") (.parsed [])
      true none [] 1 100 false).1 = true) ∧
    (resultOk (transition_to_invoiced (sampleState "preparing") "F-1"
      (.valid 10) none none none none none [] 1 100 false).1 = true) ∧
    (resultOk (transition_to_paid (sampleState "verified") "transfer" "TX1"
      5 (.valid 10) none [] 1 100 false).1 = true) ∧
    (transition_to_confirmed (sampleState "pending")
        ⟨"OC-1", none, none⟩ 1 100 false).2.indexOf (.emailSend false) <
      (transition_to_confirmed (sampleState "pending")
        ⟨"OC-1", none, none⟩ 1 100 false).2.indexOf .txCommit := by
  have h1 := c4_email_inside_transaction (sampleState "pending")
    ⟨"OC-1", none, none⟩ "1Z999" "UPS" none none none [] [] "good" none false
    [] true none "F-1" (.valid 10) none none none none none "transfer" "TX1"
    5 (.valid 10) none 1 100 false
  have h2 := c4_email_inside_transaction (sampleState "invoiced")
    ⟨"OC-1", none, none⟩ "1Z999" "UPS" none none none [] [] "good" none false
    [] true none "F-1" (.valid 10) none none none none none "transfer" "TX1"
    5 (.valid 10) none 1 100 false
  have h3 := c4_email_inside_transaction (sampleState "shipped")
    ⟨"OC-1", none, none⟩ "1Z999" "UPS" none none none [] [] "good" none false
    [] true none "F-1" (.valid 10) none none none none none "transfer" "TX1"
    5 (.valid 10) none 1 100 false
  have h4 := c4_email_inside_transaction (sampleState "received")
    ⟨"OC-1", none, none⟩ "1Z999" "UPS" none none none [] [] "good" none false
    [] true none "F-1" (.valid 10) none none none none none "transfer" "TX1"
    5 (.valid 10) none 1 100 false
  have h5 := c4_email_inside_transaction (sampleState "preparing")
    ⟨"OC-1", none, none⟩ "1Z999" "UPS" none none none [] [] "good" none false
    [] true none "F-1" (.valid 10) none none none none none "transfer" "TX1"
    5 (.valid 10) none 1 100 false
  have h6 := c4_email_inside_transaction (sampleState "verified")
    ⟨"OC-1", none, none⟩ "1Z999" "UPS" none none none [] [] "good" none false
    [] true none "F-1" (.valid 10) none none none none none "transfer" "TX1"
    5 (.valid 10) none 1 100 false
  exact ⟨(h1.1 rfl).2.2, (h2.2.1 rfl).2.2, (h3.2.2.1 rfl).2.2,
    (h4.2.2.2.1 rfl).2.2, (h5.2.2.2.2.1 rfl).2.2, (h6.2.2.2.2.2 rfl).2.2,
    (h1.1 rfl).1⟩

/-- C5 (counterexample): the source does not take the MAXIMUM existing
sequence number — it takes the number of the most recently CREATED
purchase with the year prefix.  With `WR-2025-0007` created before
`WR-2025-0002`, the source generates `WR-2025-0003`, not `WR-2025-0008`
as the max-based rule would. -/
theorem c5_counterexample :
    generate_purchase_number
        [⟨"WR-2025-0007", 1⟩, ⟨"WR-2025-0002", 2⟩] 2025 =
      some "WR-2025-0003" ∧
    spec_generate_purchase_number
        [⟨"WR-2025-0007", 1⟩, ⟨"WR-2025-0002", 2⟩] 2025 =
      "WR-2025-0008" ∧
    generate_purchase_number
        [⟨"WR-2025-0007", 1⟩, ⟨"WR-2025-0002", 2⟩] 2025 ≠
      some (spec_generate_purchase_number
        [⟨"WR-2025-0007", 1⟩, ⟨"WR-2025-0002", 2⟩] 2025) := by
  refine ⟨by decide, by decide, by decide⟩

/-- C5 (amended): `create_purchase` generates `WR-YYYY-NNNN` (current
year, zero-padded 4-digit sequence, `zeroPad4`) by taking the sequence
number of the MOST RECENTLY CREATED purchase of the tenant with the
current-year prefix and incrementing it, starting at 0001 (`zeroPad4 1`)
when no such purchase exists. -/
theorem c5_numbering_from_latest_created (existing : List ExistingPurchase)
    (current_year : Nat) :
    (matching_purchases existing current_year = [] →
      generate_purchase_number existing current_year =
        some (("WR-" ++ toString current_year ++ "-") ++ zeroPad4 1)) ∧
    (∀ lp n,
      latest_created (matching_purchases existing current_year) = some lp →
      purchase_number_seq lp.purchase_number = some n →
      generate_purchase_number existing current_year =
        some (("WR-" ++ toString current_year ++ "-") ++ zeroPad4 (n + 1))) := by
  constructor
  · intro h
    simp [generate_purchase_number, h, latest_created]
  · intro lp n hl hn
    by_cases he : lp.purchase_number = ""
    · rw [he] at hn
      simp [show purchase_number_seq "" = none from rfl] at hn
    · simp [generate_purchase_number, hl, he, hn]

/-- C5 witness: with no matching purchase the first number is
`WR-2025-0001`; with a single purchase numbered `WR-2025-0010` the next
number is `WR-2025-0011`. -/
theorem c5_numbering_from_latest_created_witness :
    generate_purchase_number [] 2025 =
      some (("WR-" ++ toString 2025 ++ "-") ++ zeroPad4 1) ∧
    generate_purchase_number [⟨"WR-2025-0010", 5⟩] 2025 =
      some (("WR-" ++ toString 2025 ++ "-") ++ zeroPad4 (10 + 1)) := by
  constructor
  · exact (c5_numbering_from_latest_created [] 2025).1 rfl
  · exact (c5_numbering_from_latest_created [⟨"WR-2025-0010", 5⟩] 2025).2
      ⟨"WR-2025-0010", 5⟩ 10 (by decide) (by decide)

theorem upload_rows_length (tid pid uid : Nat) (files : List UploadFileArg)
    (atype dsc : String) (now : Int) :
    (upload_purchase_attachments tid pid uid files atype dsc now).length =
      (files.filter uploadOk).length := by
  induction files with
  | nil => rfl
  | cons f fs ih =>
      unfold upload_purchase_attachments at ih ⊢
      cases hf : f.outcome <;>
        simp [List.filterMap_cons, List.filter_cons, hf, uploadOk, ih]

theorem upload_rows_fields (tid pid uid : Nat) (files : List UploadFileArg)
    (atype dsc : String) (now : Int) :
    ∀ a ∈ upload_purchase_attachments tid pid uid files atype dsc now,
      a.attachment_type = atype ∧ a.uploaded_by = uid ∧
      a.purchase_id = pid ∧ a.tenant_id = tid := by
  intro a ha
  unfold upload_purchase_attachments at ha
  rw [List.mem_filterMap] at ha
  obtain ⟨f, -, hf⟩ := ha
  cases ho : f.outcome <;> rw [ho] at hf <;> simp at hf
  rw [← hf]
  exact ⟨rfl, rfl, rfl, rfl⟩

/-- C7: per-file upload failures are isolated.  On a valid source status,
`transition_to_shipped` succeeds for ANY pattern of per-file outcomes; the
attachment rows after it are the prior rows plus exactly one row per
successfully uploaded file, each tagged with the transition's
`shipping_label` type and the acting user. -/
theorem c7_attachment_isolation (s : PState) (tn carrier : String)
    (edd : Option DateInput) (pc : Option Int) (snotes : Option String)
    (files : List UploadFileArg) (uid : Nat) (now : Int) (eok : Bool)
    (h : validate_state_transition s.purchase.status "shipped" = true) :
    ∃ s2, (transition_to_shipped s tn carrier edd pc snotes files uid now eok).1 =
        .ok s2 ∧
      s2.attachments.length =
        s.attachments.length + (files.filter uploadOk).length ∧
      (∀ a ∈ s2.attachments, a ∈ s.attachments ∨
        (a.attachment_type = "shipping_label" ∧ a.uploaded_by = uid ∧
         a.purchase_id = s.purchase_id ∧ a.tenant_id = s.tenant_id)) := by
  refine ⟨{ create_status_history_entry
      { s with purchase := { s.purchase with
          status := "shipped"
          tracking_number := some tn
          carrier := some carrier
          estimated_delivery_date := edd.bind parse_iso_or_none
          package_count := pc
          shipped_at := some now
          updated_at := some now } }
      (some s.purchase.status) "shipped" uid
      [("tracking_number", some tn), ("carrier", some carrier),
       ("package_count", pc.map toString)] snotes with
    attachments := s.attachments ++
      upload_purchase_attachments s.tenant_id s.purchase_id uid files
        "shipping_label" ("Envío: " ++ tn) now }, ?_, ?_, ?_⟩
  · simp [transition_to_shipped, h, create_status_history_entry]
  · simp [create_status_history_entry, upload_rows_length]
  · intro a ha
    simp only [create_status_history_entry, List.mem_append] at ha
    rcases ha with ha | ha
    · exact Or.inl ha
    · exact Or.inr (upload_rows_fields s.tenant_id s.purchase_id uid files
        "shipping_label" ("Envío: " ++ tn) now a ha)

/-- C7 witness: three files where the second fails: the ship transition
on an `invoiced` purchase succeeds and exactly two attachment rows are
persisted. -/
theorem c7_attachment_isolation_witness :
    ∃ s2, (transition_to_shipped (sampleState "invoiced") "1Z999" "UPS"
        none none none
        [⟨"a.pdf", some 10, some "application/pdf", .ok "k1" "u1"⟩,
         ⟨"b.pdf", some 20, some "application/pdf", .failed⟩,
         ⟨"c.pdf", some 30, some "application/pdf", .ok "k3" "u3"⟩]
        1 100 true).1 = .ok s2 ∧
      s2.attachments.length = 2 := by
  obtain ⟨s2, h1, h2, -⟩ := c7_attachment_isolation (sampleState "invoiced")
    "1Z999" "UPS" none none none
    [⟨"a.pdf", some 10, some "application/pdf", .ok "k1" "u1"⟩,
     ⟨"b.pdf", some 20, some "application/pdf", .failed⟩,
     ⟨"c.pdf", some 30, some "application/pdf", .ok "k3" "u3"⟩]
    1 100 true rfl
  exact ⟨s2, h1, by rw [h2]; decide⟩

/-- C8: the transition-detail read path selects as related exactly the
purchase's attachments whose stored timestamp is within the fixed
five-minute window (absolute difference under 300 seconds) of the
transition's `changed_at`, and no others. -/
theorem c8_related_attachments_window (attachments : List AttachmentRow)
    (transition_time : Int) (a : AttachmentRow) :
    a ∈ related_attachments attachments transition_time ↔
      a ∈ attachments ∧ (a.created_at - transition_time).natAbs < 300 := by
  simp [related_attachments, List.mem_filter]

/-- C9: on a valid source status, `transition_to_invoiced` succeeds and:
when the stored purchase has a positive `credit_days` the payment due
date is recomputed as the invoice date plus those days, overriding any
caller-supplied due date; the caller's `credit_days` is used only when
the purchase has no positive `credit_days` and no due date was parsed
from the caller; and `payment_balance` is set to the invoice amount, or
to 0 when the invoice amount is absent. -/
theorem c9_invoiced_payment_fields (s : PState) (inum : String)
    (idate : DateInput) (iamt tamt cd : Option Int) (pdd : Option DateInput)
    (inotes : Option String) (files : List UploadFileArg) (uid : Nat)
    (now : Int) (eok : Bool)
    (h : validate_state_transition s.purchase.status "invoiced" = true) :
    ∃ s2, (transition_to_invoiced s inum idate iamt tamt cd pdd inotes
        files uid now eok).1 = .ok s2 ∧
      (∀ n, s.purchase.credit_days = some n → 0 < n →
        s2.purchase.payment_due_date =
          some (parse_iso_or_now idate now + 86400 * n)) ∧
      (pyTruthy s.purchase.credit_days = false →
        pdd.bind parse_iso_or_none = none →
        ∀ k, cd = some k → k ≠ 0 →
        s2.purchase.payment_due_date =
          some (parse_iso_or_now idate now + 86400 * k)) ∧
      s2.purchase.payment_balance = some (iamt.getD 0) := by
  unfold transition_to_invoiced
  rw [if_pos h]
  refine ⟨_, rfl, ?_, ?_, ?_⟩
  · intro n hn hpos
    have hc : pyTruthy s.purchase.credit_days = true ∧
        s.purchase.credit_days.getD 0 > 0 := by
      rw [hn]
      simp [pyTruthy]
      omega
    simp only [if_pos hc]
    rw [hn]
    rfl
  · intro hfalse hnone k hk hk0
    have hc : ¬ (pyTruthy s.purchase.credit_days = true ∧
        s.purchase.credit_days.getD 0 > 0) := by
      simp [hfalse]
    rw [if_neg hc, if_pos ⟨hnone, by simp [hk, pyTruthy, hk0]⟩]
    simp [hk, create_status_history_entry]
  · cases hi : iamt with
    | none => simp [pyTruthy, create_status_history_entry]
    | some a =>
        by_cases ha : a = 0 <;>
          simp [pyTruthy, ha, create_status_history_entry]

/-- C9 witness: a purchase with `credit_days = 30` invoiced with invoice
date 500 gets due date `500 + 86400 * 30` even though the caller supplied
a due date; a purchase without `credit_days` and a caller `credit_days =
15` with a malformed (hence absent) invoice date gets `now + 86400 * 15`;
the balance equals the supplied invoice amount. -/
theorem c9_invoiced_payment_fields_witness :
    (∃ s2, (transition_to_invoiced
        { sampleState "preparing" with purchase :=
          { (sampleState "preparing").purchase with credit_days := some 30 } }
        "F-9" (.valid 500) (some 100) none none (some (.valid 99)) none []
        1 1000 true).1 = .ok s2 ∧
      s2.purchase.payment_due_date = some (500 + 86400 * 30) ∧
      s2.purchase.payment_balance = some 100) ∧
    (∃ s2, (transition_to_invoiced (sampleState "preparing") "F-10"
        .malformed none none (some 15) none none [] 1 1000 true).1 = .ok s2 ∧
      s2.purchase.payment_due_date = some (1000 + 86400 * 15) ∧
      s2.purchase.payment_balance = some 0) := by
  constructor
  · obtain ⟨s2, h1, h2, -, h4⟩ := c9_invoiced_payment_fields
      { sampleState "preparing" with purchase :=
        { (sampleState "preparing").purchase with credit_days := some 30 } }
      "F-9" (.valid 500) (some 100) none none (some (.valid 99)) none []
      1 1000 true rfl
    exact ⟨s2, h1, h2 30 rfl (by decide), h4⟩
  · obtain ⟨s2, h1, -, h3, h4⟩ := c9_invoiced_payment_fields
      (sampleState "preparing") "F-10" .malformed none none (some 15) none
      none [] 1 1000 true rfl
    exact ⟨s2, h1, h3 rfl rfl 15 rfl (by decide), h4⟩

/-- C10: malformed date strings never fail a transition: a malformed
`invoice_date` becomes the current server time, a malformed
`payment_date` becomes the current server time, and a malformed
`estimated_delivery_date` (ship) or `payment_due_date` (invoice) is
treated as absent; in each case the operation succeeds. -/
theorem c10_malformed_dates_ignored (s : PState) (inum : String)
    (iamt tamt : Option Int) (inotes : Option String)
    (files : List UploadFileArg) (pm pref : String) (pamt : Int)
    (pnotes : Option String) (tn carrier : String) (pc : Option Int)
    (snotes : Option String) (uid : Nat) (now : Int) (eok : Bool) :
    (validate_state_transition s.purchase.status "invoiced" = true →
      s.purchase.credit_days = none →
      ∃ s2, (transition_to_invoiced s inum .malformed iamt tamt none
          (some .malformed) inotes files uid now eok).1 = .ok s2 ∧
        s2.purchase.invoice_date = some now ∧
        s2.purchase.payment_due_date = none) ∧
    (validate_state_transition s.purchase.status "paid" = true →
      ∃ s2, (transition_to_paid s pm pref pamt .malformed pnotes files uid
          now eok).1 = .ok s2 ∧
        s2.purchase.payment_date = some now) ∧
    (validate_state_transition s.purchase.status "shipped" = true →
      ∃ s2, (transition_to_shipped s tn carrier (some .malformed) pc snotes
          files uid now eok).1 = .ok s2 ∧
        s2.purchase.estimated_delivery_date = none) := by
  refine ⟨?_, ?_, ?_⟩
  · intro h hcd
    unfold transition_to_invoiced
    rw [if_pos h]
    refine ⟨_, rfl, rfl, ?_⟩
    have hc : ¬ (pyTruthy s.purchase.credit_days = true ∧
        s.purchase.credit_days.getD 0 > 0) := by
      simp [hcd, pyTruthy]
    rw [if_neg hc]
    simp [pyTruthy, parse_iso_or_none, create_status_history_entry]
  · intro h
    unfold transition_to_paid
    rw [if_pos h]
    exact ⟨_, rfl, rfl⟩
  · intro h
    unfold transition_to_shipped
    rw [if_pos h]
    exact ⟨_, rfl, rfl⟩

/-- C10 witness: the three branches at concrete purchases in valid
source statuses (`preparing` for invoice, `verified` for pay, `invoiced`
for ship), each with a malformed date input. -/
theorem c10_malformed_dates_ignored_witness :
    (∃ s2, (transition_to_invoiced (sampleState "preparing") "F-2"
        .malformed none none none (some .malformed) none [] 1 777 true).1 =
        .ok s2 ∧
      s2.purchase.invoice_date = some 777 ∧
      s2.purchase.payment_due_date = none) ∧
    (∃ s2, (transition_to_paid (sampleState "verified") "transfer" "TX9" 50
        .malformed none [] 1 777 true).1 = .ok s2 ∧
      s2.purchase.payment_date = some 777) ∧
    (∃ s2, (transition_to_shipped (sampleState "invoiced") "1Z" "DHL"
        (some .malformed) none none [] 1 777 true).1 = .ok s2 ∧
      s2.purchase.estimated_delivery_date = none) := by
  have h := c10_malformed_dates_ignored (sampleState "preparing") "F-2"
    none none none [] "transfer" "TX9" 50 none "1Z" "DHL" none none 1 777 true
  have h2 := c10_malformed_dates_ignored (sampleState "verified") "F-2"
    none none none [] "transfer" "TX9" 50 none "1Z" "DHL" none none 1 777 true
  have h3 := c10_malformed_dates_ignored (sampleState "invoiced") "F-2"
    none none none [] "transfer" "TX9" 50 none "1Z" "DHL" none none 1 777 true
  exact ⟨h.1 rfl rfl, h2.2.1 rfl, h3.2.2 rfl⟩

end Warolabs
